import Mathlib

/-!
Verification of the upload/download lifecycle of the secure-transfer backend
(`src/backend/main.py`).

The server keeps two stores: a metadata index (Redis: hashes keyed by file id)
and a blob store (the `uploads/` directory: one `<id>.enc` file per upload).
We embed both as association lists keyed by the file identifier, and embed the
route handlers `upload_file`, `download_file`, `check_file_info` and one pass
of the `cleanup_expired_files` loop as pure state transformers.

External collaborators are parameters of the model:
  * the password digest (`hashlib.sha256` in `hash_password`) is an abstract
    function `H : String → String`;
  * the Fernet cipher is an abstract `EncScheme` whose `decrypt_encrypt` field
    records the authenticated-encryption round-trip contract;
  * the ClamAV scan result is a `ScanOutcome` input (`scan_file_for_virus`
    raises only in the `FOUND` branch; every other situation — clamd missing,
    ping failure, any exception — falls through and the upload proceeds);
  * the generated `uuid4` identifier and the generated Fernet key are inputs.
-/

deriving instance DecidableEq for Except

/-- Bytes of a file, as a list of byte values. -/
abbrev Bytes := List Nat

/-- Association-list store keyed by identifier strings (the Redis keyspace,
and the `uploads/` directory keyed by the file id before the `.enc` suffix). -/
abbrev Store (α : Type) := List (String × α)

/-- Python's `str.strip()`: drop whitespace from both ends.  (Defined by
structural recursion so that concrete instances evaluate; the standard
`String.trim` is definitionally opaque to the kernel.) -/
def pyStrip (s : String) : String :=
  ⟨((s.data.dropWhile Char.isWhitespace).reverse.dropWhile Char.isWhitespace).reverse⟩

/-- Remove every binding of key `k` (Redis `DEL`, `os.remove` of the blob). -/
def erasek (l : Store α) (k : String) : Store α :=
  l.filter (fun p => p.1 ≠ k)

/-- Bind key `k` to `v`, replacing any previous binding (`r.hset`, and the
`open(path, "wb")` blob write, which truncates whatever was there). -/
def setk (l : Store α) (k : String) (v : α) : Store α :=
  (k, v) :: erasek l k

/-- One Redis hash, as written by step 4 of `upload_file`. -/
structure FileRecord where
  filename : String
  key : String
  max_downloads : Nat
  downloads_count : Nat
  sender : String
  password_hash : Option String
  deriving DecidableEq, Repr

/-- The shared mutable state: the Redis index and the `uploads/` blob dir. -/
structure ServerState where
  index : Store FileRecord
  blobs : Store Bytes
  deriving DecidableEq, Repr

/-- The Fernet collaborator: per-file symmetric encryption whose decryption
verifiably fails (raises, modelled as `none`) rather than returning garbage,
and returns the original plaintext on untampered ciphertext. -/
structure EncScheme where
  encrypt : String → Bytes → Bytes
  decrypt : String → Bytes → Option Bytes
  decrypt_encrypt : ∀ k m, decrypt k (encrypt k m) = some m

/-- Result of the ClamAV scan collaborator as consumed by
`scan_file_for_virus`: `clean` (PONG + no FOUND), `infected name`
(`status == 'FOUND'`), `unavailable` (clamd missing, ping ≠ PONG, or any
exception around the socket). -/
inductive ScanOutcome where
  | clean
  | infected (name : String)
  | unavailable
  deriving DecidableEq, Repr

/-- The typed outcomes `upload_file` / `download_file` raise as
`HTTPException(status, detail)`. -/
inductive Err where
  | contentRejected (name : String)
  | notFound
  | authRequired
  | authRejected
  | quotaExhausted
  | missingFromDisk
  | decryptionFailed
  deriving DecidableEq, Repr

/-- HTTP status code of each raised `HTTPException`. -/
def Err.status : Err → Nat
  | .contentRejected _ => 400
  | .notFound => 404
  | .authRequired => 401
  | .authRejected => 403
  | .quotaExhausted => 410
  | .missingFromDisk => 404
  | .decryptionFailed => 500

/-- `detail` string of each raised `HTTPException`, verbatim from the code. -/
def Err.detail : Err → String
  | .contentRejected name => "VIRUS DETECTED: " ++ name
  | .notFound => "File expired or not found"
  | .authRequired => "Password required"
  | .authRejected => "Wrong password"
  | .quotaExhausted => "Download limit reached (File deleted)"
  | .missingFromDisk => "File missing from disk"
  | .decryptionFailed => "Decryption Failed"

/-- `scan_file_for_virus`: raises 400 `VIRUS DETECTED` only when the scan
reports FOUND; in every other case (clean scanner answer, clamd library
missing, ping failure, any exception) it returns and the upload proceeds. -/
def scan_file_for_virus : ScanOutcome → Option Err
  | .infected name => some (.contentRejected name)
  | .clean => none
  | .unavailable => none

/-- Step 3 of `upload_file`: `open(file_location, "wb").write(...)` under
`{file_id}.enc` — an unconditional write that truncates any existing blob. -/
def writeBlob (st : ServerState) (file_id : String) (b : Bytes) : ServerState :=
  { st with blobs := setk st.blobs file_id b }

/-- Step 5 of `upload_file`: `r.hset(file_id, mapping=metadata)`. -/
def registerMeta (st : ServerState) (file_id : String) (rec : FileRecord) :
    ServerState :=
  { st with index := setk st.index file_id rec }

/-- Step 4 of `upload_file`: the metadata hash. `max_downloads` is hardcoded
to 100 and `downloads_count` starts at 0; the password digest is stored only
when `password and password.strip()` is truthy (so `None`, `""` and
whitespace-only passwords store no hash). -/
def mkRecord (H : String → String) (filename key : String)
    (password : Option String) (sender : String) : FileRecord :=
  { filename := filename
    key := key
    max_downloads := 100
    downloads_count := 0
    sender := sender
    password_hash :=
      match password with
      | none => none
      | some p => if pyStrip p = "" then none else some (H (pyStrip p)) }

/-- `upload_file(file, expiration, password, sender_email)` with the generated
`uuid4` identifier and Fernet key as explicit inputs and the scan outcome as
an input. Read & scan, encrypt, save blob, build metadata, save Redis. -/
def upload_file (H : String → String) (E : EncScheme) (st : ServerState)
    (file_id key : String) (content : Bytes) (filename : String)
    (password : Option String) (sender : String) (scan : ScanOutcome) :
    ServerState × Except Err (String × String) :=
  match scan_file_for_virus scan with
  | some e => (st, .error e)
  | none =>
      let encrypted_content := E.encrypt key content
      let st1 := writeBlob st file_id encrypted_content
      let st2 := registerMeta st1 file_id (mkRecord H filename key password sender)
      (st2, .ok (file_id, filename))

/-- Step 2 of `download_file`: `some e` is the `HTTPException` raised, `none`
means the password check passed.  With a stored hash, a missing password and
the empty-string password are both falsy (`if not password`) and raise 401;
otherwise a digest mismatch raises 403.  With no stored hash the step is
skipped entirely. -/
def checkPassword (H : String → String) (data : FileRecord)
    (password : Option String) : Option Err :=
  match data.password_hash with
  | none => none
  | some stored =>
      match password with
      | none => some .authRequired
      | some p =>
          if p = "" then some .authRequired
          else if H p ≠ stored then some .authRejected
          else none

/-- Steps 3–4 of `download_file`: quota check (terminal deletion of record and
blob, 410), `r.hincrby(file_id, "downloads_count", 1)`, blob read (404 if the
`.enc` file is gone), Fernet decrypt (500 on any exception). -/
def serveQuota (E : EncScheme) (st : ServerState) (file_id : String)
    (data : FileRecord) : ServerState × Except Err (Bytes × String) :=
  if data.downloads_count ≥ data.max_downloads then
    ({ index := erasek st.index file_id, blobs := erasek st.blobs file_id },
     .error .quotaExhausted)
  else
    let st1 := { st with
      index := setk st.index file_id
        { data with downloads_count := data.downloads_count + 1 } }
    match List.lookup file_id st.blobs with
    | none => (st1, .error .missingFromDisk)
    | some encrypted_content =>
        match E.decrypt data.key encrypted_content with
        | none => (st1, .error .decryptionFailed)
        | some decrypted_content => (st1, .ok (decrypted_content, data.filename))

/-- `download_file(file_id, password)`: strip the identifier, look it up in
Redis (404 if absent), check the password, then quota/increment/decrypt.
On success the response carries the plaintext and the stored filename. -/
def download_file (H : String → String) (E : EncScheme) (st : ServerState)
    (file_id : String) (password : Option String) :
    ServerState × Except Err (Bytes × String) :=
  let fid := pyStrip file_id
  match List.lookup fid st.index with
  | none => (st, .error .notFound)
  | some data =>
      match checkPassword H data password with
      | some e => (st, .error e)
      | none => serveQuota E st fid data

/-- `check_file_info(file_id)`: no trimming; `none` models the 404. -/
def check_file_info (st : ServerState) (file_id : String) :
    Option (Bool × String) :=
  match List.lookup file_id st.index with
  | none => none
  | some data => some (data.password_hash.isSome, data.filename)

/-- One pass of the `cleanup_expired_files` loop body: every `.enc` blob whose
identifier does not exist in Redis is removed, immediately and with a single
existence check. -/
def cleanup_pass (st : ServerState) : ServerState :=
  { st with blobs := st.blobs.filter (fun p => (List.lookup p.1 st.index).isSome) }

/-! ### Store lemmas -/

theorem lookup_filter_key (l : Store α) (f : String → Bool) (k : String) :
    List.lookup k (l.filter (fun p => f p.1)) =
      if f k then List.lookup k l else none := by
  induction l with
  | nil => simp
  | cons hd tl ih =>
      obtain ⟨a, v⟩ := hd
      by_cases he : k = a
      · subst he
        by_cases hf : f k
        · simp [List.filter, hf, List.lookup_cons]
        · simp [List.filter, hf, ih]
      · by_cases hf : f a
        · simp [List.filter, hf, List.lookup_cons, beq_false_of_ne he, ih]
        · simp [List.filter, hf, List.lookup_cons, beq_false_of_ne he, ih]

theorem lookup_erasek (l : Store α) (k k' : String) :
    List.lookup k' (erasek l k) =
      if k' = k then none else List.lookup k' l := by
  have h := lookup_filter_key l (fun x => decide (x ≠ k)) k'
  by_cases he : k' = k
  · subst he
    simpa [erasek] using h
  · simpa [erasek, he] using h

theorem lookup_erasek_self (l : Store α) (k : String) :
    List.lookup k (erasek l k) = none := by
  simp [lookup_erasek]

theorem lookup_erasek_ne (l : Store α) (k k' : String) (h : k' ≠ k) :
    List.lookup k' (erasek l k) = List.lookup k' l := by
  simp [lookup_erasek, h]

theorem lookup_setk_self (l : Store α) (k : String) (v : α) :
    List.lookup k (setk l k v) = some v := by
  simp [setk]

theorem lookup_setk_ne (l : Store α) (k k' : String) (v : α) (h : k' ≠ k) :
    List.lookup k' (setk l k v) = List.lookup k' l := by
  simp [setk, List.lookup_cons, beq_false_of_ne h, lookup_erasek_ne l k k' h]

theorem lookup_setk_cases (l : Store α) (k k' : String) (v w : α)
    (h : List.lookup k' (setk l k v) = some w) :
    (k' = k ∧ w = v) ∨ List.lookup k' l = some w := by
  by_cases he : k' = k
  · subst he
    rw [lookup_setk_self] at h
    exact Or.inl ⟨rfl, (Option.some.injEq _ _).mp h.symm⟩
  · rw [lookup_setk_ne l k k' v he] at h
    exact Or.inr h

theorem lookup_erasek_sub (l : Store α) (k k' : String) (w : α)
    (h : List.lookup k' (erasek l k) = some w) :
    List.lookup k' l = some w := by
  rw [lookup_erasek] at h
  by_cases he : k' = k
  · simp [he] at h
  · simpa [he] using h

/-! ### Concrete collaborator instances, used to instantiate witnesses -/

/-- A concrete digest function (stands in for SHA-256 in witnesses). -/
def H₀ : String → String := fun s => String.append "#" s

/-- A concrete encryption scheme satisfying the Fernet round-trip contract
(stands in for Fernet in witnesses). -/
def E₀ : EncScheme where
  encrypt := fun _ m => 7 :: m
  decrypt := fun _ c =>
    match c with
    | n :: m => if n = 7 then some m else none
    | [] => none
  decrypt_encrypt := by intro k m; simp

/-! ### Claims -/

/-- C1: uploading clean content with no password and then immediately
releasing the returned identifier with no password succeeds and returns the
uploaded bytes byte-identically, together with the original filename. -/
theorem C1_clean_roundtrip
    (H : String → String) (E : EncScheme) (st : ServerState)
    (file_id key : String) (content : Bytes) (filename sender : String)
    (hfid : pyStrip file_id = file_id) :
    (upload_file H E st file_id key content filename none sender .clean).2 =
      .ok (file_id, filename) ∧
    (download_file H E
        (upload_file H E st file_id key content filename none sender .clean).1
        file_id none).2 = .ok (content, filename) := by
  refine ⟨rfl, ?_⟩
  unfold download_file upload_file
  simp only [scan_file_for_virus, registerMeta, writeBlob, hfid,
    lookup_setk_self, mkRecord, checkPassword, serveQuota]
  simp [lookup_setk_self, E.decrypt_encrypt]

/-- Witness for C1 at concrete inputs. -/
theorem C1_clean_roundtrip_witness :
    pyStrip "f" = "f" ∧
    (download_file H₀ E₀
        (upload_file H₀ E₀ ⟨[], []⟩ "f" "k" [1, 2] "doc" none "anon" .clean).1
        "f" none).2 = .ok ([1, 2], "doc") :=
  ⟨by decide,
   (C1_clean_roundtrip H₀ E₀ ⟨[], []⟩ "f" "k" [1, 2] "doc" "anon" (by decide)).2⟩

/-- C2: when `downloads_count` has reached `max_downloads`, a release attempt
that passes authentication fails with `QuotaExhausted` and synchronously
deletes both the record from the index and the blob from the store, and every
subsequent release attempt on the same identifier fails with `NotFound` (and
leaves the state unchanged, so all later attempts fail the same way). -/
theorem C2_quota_terminal
    (H : String → String) (E : EncScheme) (st : ServerState)
    (file_id : String) (data : FileRecord) (password : Option String)
    (hfid : pyStrip file_id = file_id)
    (hlook : List.lookup file_id st.index = some data)
    (hauth : checkPassword H data password = none)
    (hquota : data.downloads_count = data.max_downloads) :
    (download_file H E st file_id password).2 = .error .quotaExhausted ∧
    List.lookup file_id (download_file H E st file_id password).1.index = none ∧
    List.lookup file_id (download_file H E st file_id password).1.blobs = none ∧
    ∀ pw, download_file H E (download_file H E st file_id password).1 file_id pw =
      ((download_file H E st file_id password).1, .error .notFound) := by
  have hdl : download_file H E st file_id password =
      (⟨erasek st.index file_id, erasek st.blobs file_id⟩,
       .error .quotaExhausted) := by
    unfold download_file
    simp only [hfid, hlook]
    simp only [hauth, serveQuota, hquota, ge_iff_le, le_refl, if_true]
  refine ⟨by rw [hdl], by rw [hdl]; exact lookup_erasek_self _ _,
    by rw [hdl]; exact lookup_erasek_self _ _, ?_⟩
  intro pw
  rw [hdl]
  unfold download_file
  simp only [hfid, lookup_erasek_self]

/-- Witness for C2 at concrete inputs. -/
theorem C2_quota_terminal_witness :
    pyStrip "f" = "f" ∧
    List.lookup "f"
      (⟨[("f", ⟨"doc", "k", 2, 2, "anon", none⟩)], [("f", [7, 1])]⟩ :
        ServerState).index = some ⟨"doc", "k", 2, 2, "anon", none⟩ ∧
    checkPassword H₀ ⟨"doc", "k", 2, 2, "anon", none⟩ none = none ∧
    (download_file H₀ E₀
      ⟨[("f", ⟨"doc", "k", 2, 2, "anon", none⟩)], [("f", [7, 1])]⟩
      "f" none).2 = .error .quotaExhausted :=
  ⟨by decide, by decide, by decide,
   (C2_quota_terminal H₀ E₀
      ⟨[("f", ⟨"doc", "k", 2, 2, "anon", none⟩)], [("f", [7, 1])]⟩
      "f" ⟨"doc", "k", 2, 2, "anon", none⟩ none
      (by decide) (by decide) (by decide) rfl).1⟩

/-- A password-protected record as `upload_file` stores it for password
`"secret"` (digest taken with `H₀`). -/
def data₀ : FileRecord := ⟨"doc", "k", 100, 0, "anon", some (H₀ "secret")⟩

/-- A state holding `data₀` under identifier `"f"` with an intact blob. -/
def st₀ : ServerState := ⟨[("f", data₀)], [("f", [7, 1])]⟩

/-- C3 counterexample: upload with password `"secret"`, then release with the
supplied password `""`.  Its digest differs from the stored digest, so the
claim demands `AuthRejected` (403); the code's `if not password` treats the
empty string as no password and raises `AuthRequired` (401) instead. -/
theorem C3_counterexample :
    H₀ "" ≠ H₀ "secret" ∧
    (download_file H₀ E₀
        (upload_file H₀ E₀ ⟨[], []⟩ "f" "k" [1] "doc" (some "secret") "anon"
          .clean).1
        "f" (some "")).2 = .error .authRequired ∧
    (download_file H₀ E₀
        (upload_file H₀ E₀ ⟨[], []⟩ "f" "k" [1] "doc" (some "secret") "anon"
          .clean).1
        "f" (some "")).2 ≠ .error .authRejected := by
  refine ⟨by decide, by decide, by decide⟩

/-- C3 (amended): for an upload with stored password digest: a release with no
password or with the empty-string password fails with `AuthRequired`; a
release with a non-empty password whose digest differs fails with
`AuthRejected`; a release with a non-empty password whose digest matches
(with downloads remaining and an intact blob) succeeds.  For a file stored
without a password the authentication step is a no-op and any supplied
password is ignored. -/
theorem C3_password_auth
    (H : String → String) (E : EncScheme) (st : ServerState)
    (file_id : String) (data : FileRecord)
    (hfid : pyStrip file_id = file_id)
    (hlook : List.lookup file_id st.index = some data) :
    (∀ s, data.password_hash = some s →
      download_file H E st file_id none = (st, .error .authRequired) ∧
      download_file H E st file_id (some "") = (st, .error .authRequired)) ∧
    (∀ s p, data.password_hash = some s → p ≠ "" → H p ≠ s →
      download_file H E st file_id (some p) = (st, .error .authRejected)) ∧
    (∀ s p enc m, data.password_hash = some s → p ≠ "" → H p = s →
      data.downloads_count < data.max_downloads →
      List.lookup file_id st.blobs = some enc →
      E.decrypt data.key enc = some m →
      (download_file H E st file_id (some p)).2 = .ok (m, data.filename)) ∧
    (data.password_hash = none →
      ∀ pw pw', download_file H E st file_id pw = download_file H E st file_id pw') := by
  refine ⟨?_, ?_, ?_, ?_⟩
  · intro s hs
    constructor <;>
      · unfold download_file
        simp [hfid, hlook, checkPassword, hs]
  · intro s p hs hp hne
    unfold download_file
    simp [hfid, hlook, checkPassword, hs, hp, hne]
  · intro s p enc m hs hp hmatch hq hblob hdec
    unfold download_file
    simp only [hfid, hlook]
    simp only [checkPassword, hs, hp, if_false, hmatch, ite_not, if_pos rfl]
    simp [hp, serveQuota, Nat.not_le.mpr hq, hblob, hdec, Nat.not_le.mpr]
  · intro hnone pw pw'
    unfold download_file
    simp [hfid, hlook, checkPassword, hnone]

/-- Witness for C3 (amended) at concrete inputs: the matching-password
success branch at password `"secret"`. -/
theorem C3_password_auth_witness :
    pyStrip "f" = "f" ∧
    List.lookup "f" st₀.index = some data₀ ∧
    (download_file H₀ E₀ st₀ "f" (some "secret")).2 = .ok ([1], "doc") :=
  ⟨by decide, by decide,
   (C3_password_auth H₀ E₀ st₀ "f" data₀ (by decide) (by decide)).2.2.1
     (H₀ "secret") "secret" [7, 1] [1] rfl (by decide) rfl (by decide)
     (by decide) (by decide)⟩

/-- The C4 invariant: every record in the index respects its quota bound. -/
def RecordBound (st : ServerState) : Prop :=
  ∀ fid rec, List.lookup fid st.index = some rec →
    rec.downloads_count ≤ rec.max_downloads

theorem serveQuota_recordBound (st : ServerState)
    (fid : String) (data : FileRecord) (hInv : RecordBound st)
    (hq : ¬ data.downloads_count ≥ data.max_downloads) :
    RecordBound ({ st with
      index := setk st.index fid
        ({ data with downloads_count := data.downloads_count + 1 }) } : ServerState) := by
  intro f r hr
  rcases lookup_setk_cases _ _ _ _ _ hr with ⟨_, hr⟩ | hr
  · subst hr
    exact Nat.succ_le_of_lt (Nat.lt_of_not_le hq)
  · exact hInv f r hr

/-- C4: records are created with `downloads_count = 0` (and ceiling 100), and
the operations — upload, the release pipeline (whose increment is guarded by
the quota check), and the cleanup pass — all preserve
`downloads_count ≤ max_downloads` for every record in the index. -/
theorem C4_quota_invariant
    (H : String → String) (E : EncScheme) (st : ServerState)
    (hInv : RecordBound st) :
    (∀ filename key password sender,
      (mkRecord H filename key password sender).downloads_count = 0 ∧
      (mkRecord H filename key password sender).max_downloads = 100) ∧
    (∀ file_id key content filename password sender scan,
      RecordBound
        (upload_file H E st file_id key content filename password sender scan).1) ∧
    (∀ file_id password,
      RecordBound (download_file H E st file_id password).1) ∧
    RecordBound (cleanup_pass st) := by
  refine ⟨fun _ _ _ _ => ⟨rfl, rfl⟩, ?_, ?_, ?_⟩
  · intro file_id key content filename password sender scan
    unfold upload_file
    cases scan_file_for_virus scan with
    | some e => exact hInv
    | none =>
        intro fid rec hrec
        simp only [registerMeta, writeBlob] at hrec
        rcases lookup_setk_cases _ _ _ _ _ hrec with ⟨_, hrec⟩ | hrec
        · subst hrec
          exact Nat.zero_le _
        · exact hInv fid rec hrec
  · intro file_id password
    unfold download_file
    cases hl : List.lookup (pyStrip file_id) st.index with
    | none =>
        simp only [hl]
        exact hInv
    | some data =>
        simp only [hl]
        cases hcp : checkPassword H data password with
        | some e =>
            simp only [hcp]
            exact hInv
        | none =>
            simp only [hcp]
            unfold serveQuota
            by_cases hq : data.downloads_count ≥ data.max_downloads
            · simp only [hq, if_true]
              intro fid rec hrec
              exact hInv fid rec (lookup_erasek_sub _ _ _ _ hrec)
            · simp only [hq, if_false]
              have hBound := serveQuota_recordBound st (pyStrip file_id) data hInv hq
              cases hb : List.lookup (pyStrip file_id) st.blobs with
              | none =>
                  simp only [hb]
                  exact hBound
              | some enc =>
                  simp only [hb]
                  cases hd : E.decrypt data.key enc with
                  | none =>
                      simp only [hd]
                      exact hBound
                  | some m =>
                      simp only [hd]
                      exact hBound
  · unfold cleanup_pass
    intro fid rec hrec
    exact hInv fid rec hrec

/-- Witness for C4 at a concrete state satisfying the invariant. -/
theorem C4_quota_invariant_witness :
    RecordBound st₀ ∧
    RecordBound (download_file H₀ E₀ st₀ "f" (some "secret")).1 :=
  have h : RecordBound st₀ := by
    intro fid rec hrec
    simp only [st₀] at hrec
    rcases lookup_setk_cases [] "f" fid data₀ rec
        (by simpa [setk, erasek] using hrec) with ⟨_, hrec⟩ | hrec
    · subst hrec
      decide
    · simp [List.lookup] at hrec
  ⟨h, (C4_quota_invariant H₀ E₀ st₀ h).2.2.1 "f" (some "secret")⟩

/-- C5 counterexample: the blob store already holds bytes `[1, 2, 3]` under
identifier `"f"`; an admission that generates the same identifier is not
refused — it succeeds and silently replaces the existing blob. -/
theorem C5_counterexample :
    List.lookup "f" (⟨[], [("f", [1, 2, 3])]⟩ : ServerState).blobs =
      some [1, 2, 3] ∧
    (upload_file H₀ E₀ ⟨[], [("f", [1, 2, 3])]⟩ "f" "k" [9] "doc" none "anon"
      .clean).2 = .ok ("f", "doc") ∧
    List.lookup "f"
      (upload_file H₀ E₀ ⟨[], [("f", [1, 2, 3])]⟩ "f" "k" [9] "doc" none "anon"
        .clean).1.blobs = some (E₀.encrypt "k" [9]) ∧
    E₀.encrypt "k" [9] ≠ [1, 2, 3] := by
  refine ⟨by decide, rfl, by decide, by decide⟩

/-- C5 (amended): the ciphertext write of an admission is unconditional: it
succeeds whether or not a blob with the generated identifier already exists,
and afterwards the blob under that identifier is the new ciphertext — an
existing blob is silently overwritten rather than the write being refused. -/
theorem C5_blob_write_overwrites
    (H : String → String) (E : EncScheme) (st : ServerState)
    (file_id key : String) (content : Bytes) (filename sender : String)
    (password : Option String) :
    (upload_file H E st file_id key content filename password sender .clean).2 =
      .ok (file_id, filename) ∧
    List.lookup file_id
      (upload_file H E st file_id key content filename password sender
        .clean).1.blobs = some (E.encrypt key content) := by
  refine ⟨rfl, ?_⟩
  unfold upload_file
  simp only [scan_file_for_virus, registerMeta, writeBlob]
  exact lookup_setk_self _ _ _

/-- C6 counterexample: a blob just written by an admission in progress (the
window after the blob write, before the index registration) is deleted by a
single concurrent cleanup pass — there is no minimum age of one
reconciliation interval and no repeated index check. -/
theorem C6_counterexample :
    List.lookup "f" (writeBlob ⟨[], []⟩ "f" [1]).blobs = some [1] ∧
    List.lookup "f" (writeBlob ⟨[], []⟩ "f" [1]).index = none ∧
    List.lookup "f" (cleanup_pass (writeBlob ⟨[], []⟩ "f" [1])).blobs = none := by
  refine ⟨by decide, by decide, by decide⟩

/-- C6 (amended): a cleanup pass deletes exactly those blobs whose identifier
has no index record at the moment of its single existence check, immediately;
in particular a blob written by an admission in progress but not yet
registered in the index is deleted if a pass observes it in that window. -/
theorem C6_cleanup_no_grace
    (st : ServerState) (fid : String) (b : Bytes)
    (hidx : List.lookup fid st.index = none) :
    List.lookup fid (writeBlob st fid b).blobs = some b ∧
    List.lookup fid (cleanup_pass (writeBlob st fid b)).blobs = none ∧
    ∀ st' : ServerState, ∀ f,
      List.lookup f (cleanup_pass st').blobs =
        if (List.lookup f st'.index).isSome then List.lookup f st'.blobs
        else none := by
  have hall : ∀ st' : ServerState, ∀ f,
      List.lookup f (cleanup_pass st').blobs =
        if (List.lookup f st'.index).isSome then List.lookup f st'.blobs
        else none := by
    intro st' f
    exact lookup_filter_key st'.blobs (fun k => (List.lookup k st'.index).isSome) f
  refine ⟨lookup_setk_self _ _ _, ?_, hall⟩
  rw [hall (writeBlob st fid b) fid]
  simp [writeBlob, hidx]

/-- Witness for C6 (amended) at a concrete state. -/
theorem C6_cleanup_no_grace_witness :
    List.lookup "f" (⟨[], []⟩ : ServerState).index = none ∧
    List.lookup "f" (cleanup_pass (writeBlob ⟨[], []⟩ "f" [1])).blobs = none :=
  ⟨by decide, (C6_cleanup_no_grace ⟨[], []⟩ "f" [1] (by decide)).2.1⟩

/-- C7 counterexample: with the scanner unavailable the upload proceeds and
persists blob and record — the fail-open outcome is hardwired (the admission
takes no policy configuration), not an explicitly configured choice. -/
theorem C7_counterexample :
    (upload_file H₀ E₀ ⟨[], []⟩ "f" "k" [1] "doc" none "anon" .unavailable).2 =
      .ok ("f", "doc") ∧
    (List.lookup "f"
      (upload_file H₀ E₀ ⟨[], []⟩ "f" "k" [1] "doc" none "anon"
        .unavailable).1.index).isSome = true ∧
    List.lookup "f"
      (upload_file H₀ E₀ ⟨[], []⟩ "f" "k" [1] "doc" none "anon"
        .unavailable).1.blobs = some (E₀.encrypt "k" [1]) := by
  refine ⟨rfl, by decide, by decide⟩

/-- C7 (amended): an upload whose scan reports `infected(name)` fails with
`ContentRejected(name)` and persists nothing (the state is unchanged); an
upload whose scanner is unavailable behaves exactly like a clean one — the
code proceeds with only a logged warning, an implicit fail-open default with
no configuration point. -/
theorem C7_scan_outcomes
    (H : String → String) (E : EncScheme) (st : ServerState)
    (file_id key : String) (content : Bytes) (filename sender : String)
    (password : Option String) :
    (∀ name,
      upload_file H E st file_id key content filename password sender
        (.infected name) = (st, .error (.contentRejected name))) ∧
    upload_file H E st file_id key content filename password sender
        .unavailable =
      upload_file H E st file_id key content filename password sender .clean := by
  exact ⟨fun name => rfl, rfl⟩

/-- C8: once a release passes the quota check, `downloads_count` is
incremented by exactly 1 — and this increment survives every outcome of the
remaining steps: the release either returns the plaintext, or fails because
the blob is missing, or fails with `DecryptionFailed`, and in all three cases
the stored count is the old count plus one (no rollback). -/
theorem C8_increment_before_return
    (H : String → String) (E : EncScheme) (st : ServerState)
    (file_id : String) (data : FileRecord) (password : Option String)
    (hfid : pyStrip file_id = file_id)
    (hlook : List.lookup file_id st.index = some data)
    (hauth : checkPassword H data password = none)
    (hq : data.downloads_count < data.max_downloads) :
    List.lookup file_id (download_file H E st file_id password).1.index =
      some ({ data with downloads_count := data.downloads_count + 1 }) ∧
    ((download_file H E st file_id password).2 = .error .missingFromDisk ∨
     (download_file H E st file_id password).2 = .error .decryptionFailed ∨
     ∃ m, (download_file H E st file_id password).2 = .ok (m, data.filename)) := by
  unfold download_file
  simp only [hfid, hlook, hauth]
  unfold serveQuota
  simp only [Nat.not_le.mpr hq, ge_iff_le, if_false]
  cases hb : List.lookup file_id st.blobs with
  | none =>
      simp only [hb]
      exact ⟨lookup_setk_self _ _ _, Or.inl trivial⟩
  | some enc =>
      simp only [hb]
      cases hd : E.decrypt data.key enc with
      | none =>
          simp only [hd]
          exact ⟨lookup_setk_self _ _ _, Or.inr (Or.inl trivial)⟩
      | some m =>
          simp only [hd]
          exact ⟨lookup_setk_self _ _ _, Or.inr (Or.inr ⟨m, rfl⟩)⟩

/-- Witness for C8 at concrete inputs (successful decrypt branch). -/
theorem C8_increment_before_return_witness :
    List.lookup "f" st₀.index = some data₀ ∧
    List.lookup "f" (download_file H₀ E₀ st₀ "f" (some "secret")).1.index =
      some ({ data₀ with downloads_count := 1 }) :=
  ⟨by decide,
   (C8_increment_before_return H₀ E₀ st₀ "f" data₀ (some "secret")
      (by decide) (by decide) (by decide) (by decide)).1⟩

/-- C9: the download handler strips the identifier before lookup, so any two
identifiers with the same stripped form behave identically (in particular a
whitespace-surrounded identifier releases like the stripped one); the check
and upload handlers perform no such stripping: a record is reachable by
`check` only under its verbatim identifier, and upload stores the record
under the identifier verbatim, not under its stripped form. -/
theorem C9_strip_download_only (H : String → String) (E : EncScheme) :
    (∀ st password file_id file_id', pyStrip file_id = pyStrip file_id' →
      download_file H E st file_id password =
        download_file H E st file_id' password) ∧
    (∃ st : ServerState, ∃ fid,
      check_file_info st fid = none ∧ check_file_info st (pyStrip fid) ≠ none) ∧
    (∃ st : ServerState, ∃ fid key content filename sender,
      pyStrip fid ≠ fid ∧
      List.lookup fid
        (upload_file H E st fid key content filename none sender
          .clean).1.index ≠ none ∧
      List.lookup (pyStrip fid)
        (upload_file H E st fid key content filename none sender
          .clean).1.index = none) := by
  refine ⟨?_, ?_, ?_⟩
  · intro st password file_id file_id' h
    unfold download_file
    rw [h]
  · refine ⟨st₀, " f", by decide, ?_⟩
    have h : pyStrip " f" = "f" := by decide
    rw [h]
    decide
  · refine ⟨⟨[], []⟩, " f", "k", [1], "doc", "anon", by decide, ?_, ?_⟩
    · unfold upload_file
      simp only [scan_file_for_virus, registerMeta, writeBlob]
      rw [lookup_setk_self]
      simp
    · unfold upload_file
      simp only [scan_file_for_virus, registerMeta, writeBlob]
      have h : pyStrip " f" = "f" := by decide
      rw [h, lookup_setk_ne _ _ _ _ (by decide)]
      rfl

/-- Witness for C9 at concrete identifiers. -/
theorem C9_strip_download_only_witness :
    pyStrip " f " = pyStrip "f" ∧
    download_file H₀ E₀ st₀ " f " (some "secret") =
      download_file H₀ E₀ st₀ "f" (some "secret") :=
  ⟨by decide,
   (C9_strip_download_only H₀ E₀).1 st₀ (some "secret") " f " "f" (by decide)⟩

/-- C10: when the record exists but its blob is gone, a release that passes
authentication and the quota check fails with the 404 whose detail string
("File missing from disk") differs from the missing-record 404 ("File expired
or not found"), and only after `downloads_count` has been incremented: the
incremented record stays in the index. -/
theorem C10_blob_missing_after_increment
    (H : String → String) (E : EncScheme) (st : ServerState)
    (file_id : String) (data : FileRecord) (password : Option String)
    (hfid : pyStrip file_id = file_id)
    (hlook : List.lookup file_id st.index = some data)
    (hauth : checkPassword H data password = none)
    (hq : data.downloads_count < data.max_downloads)
    (hblob : List.lookup file_id st.blobs = none) :
    (download_file H E st file_id password).2 = .error .missingFromDisk ∧
    Err.missingFromDisk.detail ≠ Err.notFound.detail ∧
    List.lookup file_id (download_file H E st file_id password).1.index =
      some ({ data with downloads_count := data.downloads_count + 1 }) := by
  unfold download_file
  simp only [hfid, hlook, hauth]
  unfold serveQuota
  simp only [Nat.not_le.mpr hq, ge_iff_le, if_false, hblob]
  exact ⟨trivial, by decide, lookup_setk_self _ _ _⟩

/-- Witness for C10 at a concrete state with a record and no blob. -/
theorem C10_blob_missing_after_increment_witness :
    List.lookup "f" (⟨[("f", data₀)], []⟩ : ServerState).index = some data₀ ∧
    (download_file H₀ E₀ ⟨[("f", data₀)], []⟩ "f" (some "secret")).2 =
      .error .missingFromDisk :=
  ⟨by decide,
   (C10_blob_missing_after_increment H₀ E₀ ⟨[("f", data₀)], []⟩ "f" data₀
      (some "secret") (by decide) (by decide) (by decide) (by decide)
      (by decide)).1⟩
